import Mathlib

/-!
Shallow embedding of the text-heuristics and counters subsystem of the
`augmented-ai` service (source file `api/zjer.py`).  External collaborators
(the grammar tool, the sentiment model, the text generator and the sentence
segmenter) appear as function parameters; a fallible collaborator returns
`Except String α`, the error case standing for a raised exception which the
handler turns into an HTTP 500 response with the raw message.

Python regular-expression semantics for the two fixed patterns of
`/suggest` are translated into explicit character-level scanners; Python
machine floats are idealised as rationals.
-/

/-- Word character in the sense of the regex class backslash-w (ASCII view):
alphanumeric or underscore. -/
def isWordChar (c : Char) : Bool := c.isAlphanum || c == '_'

/-- Whitespace in the sense of the regex class backslash-s (ASCII view). -/
def isSpaceChar (c : Char) : Bool :=
  c == ' ' || c == '\t' || c == '\n' || c == '\r' || c == '\x0b' || c == '\x0c'

/-- Maximal runs of word characters, accumulator-style; `w` is the current
run reversed.  Mirrors scanning of `re.findall(r'\b\w+\b', text)`. -/
def wordRunsAux (w : List Char) : List Char → List (List Char)
  | [] => if w.isEmpty then [] else [w.reverse]
  | c :: cs =>
    if isWordChar c then wordRunsAux (c :: w) cs
    else if w.isEmpty then wordRunsAux [] cs
    else w.reverse :: wordRunsAux [] cs

/-- All word tokens of a character list (`re.findall(r'\b\w+\b', ...)`). -/
def wordRuns (l : List Char) : List (List Char) := wordRunsAux [] l

/-- `len(re.findall(r'\b\w+\b', text))`, the word count used everywhere. -/
def wordCount (s : String) : Nat := (wordRuns s.data).length

/-- Python `str.strip()` on a character list. -/
def stripL (l : List Char) : List Char :=
  ((l.dropWhile isSpaceChar).reverse.dropWhile isSpaceChar).reverse

/-- Python `str.strip()`. -/
def pyStrip (s : String) : String := String.mk (stripL s.data)

/-- Truthiness of `text.strip()`. -/
def stripNonempty (s : String) : Bool := !(stripL s.data).isEmpty

/-- Is `sub` a prefix of `l`? (step relation of substring search). -/
def isSubstrAt : List Char → List Char → Bool
  | [], _ => true
  | _ :: _, [] => false
  | a :: as, b :: bs => a == b && isSubstrAt as bs

/-- Does `l` contain `sub` as a contiguous substring (Python `sub in l`)? -/
def containsSub (sub : List Char) : List Char → Bool
  | [] => isSubstrAt sub []
  | c :: t => isSubstrAt sub (c :: t) || containsSub sub t

/-- Python `sub in s` on strings. -/
def strContains (s sub : String) : Bool := containsSub sub.data s.data

/-- Python `text.split('\n\n')`: split on non-overlapping double newlines,
left to right; `acc` is the current piece reversed. -/
def splitParasAux (acc : List Char) : List Char → List (List Char)
  | [] => [acc.reverse]
  | [c] => [(c :: acc).reverse]
  | c :: d :: rest =>
    if c == '\n' && d == '\n' then acc.reverse :: splitParasAux [] rest
    else splitParasAux (c :: acc) (d :: rest)

/-- The paragraphs of a text: `text.split('\n\n')`. -/
def splitParagraphs (s : String) : List String :=
  (splitParasAux [] s.data).map (fun l => String.mk l)

/-- The process-wide counters of the service. -/
structure Stats where
  words_checked : Nat
  grammar_errors_found : Nat
  suggestions_made : Nat
deriving DecidableEq, Repr

/-- Per-paragraph sentiment as returned by the external model. -/
structure Sentiment where
  label : String
  score : ℚ
deriving DecidableEq, Repr

/-- Per-paragraph sentiment entry of the `/analyze` response. -/
structure SentimentResult where
  preview : String
  full_paragraph : String
  label : String
  score : ℚ
deriving DecidableEq, Repr

/-- The analysis record cached and returned by `/analyze`. -/
structure Analysis where
  char_count : Nat
  word_count : Nat
  sentence_count : Nat
  avg_word_length : ℚ
  avg_sentence_length : ℚ
  overall_sentiment : String
  positive_paragraphs : Nat
  negative_paragraphs : Nat
  sentiment_results : List SentimentResult
deriving DecidableEq, Repr

/-- A readability issue of the `/analyze` response. -/
structure Issue where
  issue : String
  message : String
deriving DecidableEq, Repr

/-- The whole mutable module state: counters plus the `analysis_results`
cache (a Python dict, modelled as an insertion-ordered association list). -/
structure Store where
  stats : Stats
  analysis_results : List (String × Analysis)
deriving DecidableEq, Repr

/-- Python dict assignment `d[k] = v` on an insertion-ordered list. -/
def dictInsert (k : String) (v : Analysis) : List (String × Analysis) → List (String × Analysis)
  | [] => [(k, v)]
  | (k0, v0) :: rest =>
    if k0 == k then (k, v) :: rest else (k0, v0) :: dictInsert k v rest

/-- Response of `POST /reset`. -/
structure ResetResponse where
  message : String
  stats : Stats
deriving DecidableEq, Repr

/-- Handler of `POST /reset` (`reset_stats` in the source): rebuilds the
counters at zero and empties the cache. -/
def reset_stats (_store : Store) : Store × ResetResponse :=
  let st : Stats := { words_checked := 0, grammar_errors_found := 0, suggestions_made := 0 }
  ({ stats := st, analysis_results := [] },
   { message := "Stats reset successfully", stats := st })

/-- One match object of the external grammar tool. -/
structure GrammarMatch where
  offset : Nat
  errorLength : Nat
  replacements : List String
  ruleIssueType : String
deriving DecidableEq, Repr

/-- One entry of the `grammar_issues` list of `/check-grammar`. -/
structure GrammarIssue where
  error : String
  context : String
  suggestions : List String
  rule : String
  offset : Nat
  length : Nat
deriving DecidableEq, Repr

/-- Response of `POST /check-grammar`. -/
structure CheckResponse where
  grammar_issues : List GrammarIssue
  total_issues : Nat
  stats : Stats
deriving DecidableEq, Repr

/-- Python slice `l[a:b]` for nonnegative bounds (clamped). -/
def pySlice (l : List Char) (a b : Nat) : List Char := (l.drop a).take (b - a)

/-- Builds one result entry of `/check-grammar` from a match, as in the
loop body of `check_grammar`. -/
def mkGrammarIssue (text : String) (m : GrammarMatch) : GrammarIssue :=
  let error_context := String.mk (pySlice text.data (m.offset - 20) (m.offset + m.errorLength + 20))
  let error_text := String.mk (pySlice text.data m.offset (m.offset + m.errorLength))
  { error := error_text, context := error_context,
    suggestions := if m.replacements.isEmpty then ["No suggestions"] else m.replacements.take 3,
    rule := m.ruleIssueType, offset := m.offset, length := m.errorLength }

/-- Handler of `POST /check-grammar`.  `tool` is the external grammar
checker; its error case is a raised exception, turned into a 500 response.
Note `words_checked` is bumped before the tool is invoked, exactly as in
the source. -/
def check_grammar (tool : String → Except String (List GrammarMatch))
    (st : Stats) (text : String) : Stats × Except String CheckResponse :=
  let words := wordCount text
  let st1 := { st with words_checked := st.words_checked + words }
  match tool text with
  | .error e => (st1, .error e)
  | .ok matchList =>
    let results := matchList.map (mkGrammarIssue text)
    let st2 := { st1 with grammar_errors_found := st1.grammar_errors_found + results.length }
    (st2, .ok { grammar_issues := results, total_issues := results.length, stats := st2 })

/-- The `completion` object of `/complete`. -/
structure Completion where
  prompt : String
  generated_text : String
  full_text : String
deriving DecidableEq, Repr

/-- Response of `POST /complete`. -/
structure CompleteResponse where
  completion : Completion
  stats : Stats
deriving DecidableEq, Repr

/-- Handler of `POST /complete` (`complete_text` in the source).  `gen` is
the external text generator, given the prompt and `max_new_tokens` and
returning the full generated text. -/
def complete_text (gen : String → Nat → Except String String)
    (st : Stats) (text : String) (max_length : Nat) : Stats × Except String CompleteResponse :=
  let last_chars := if text.length > 100 then String.mk (text.data.drop (text.data.length - 100)) else text
  match gen last_chars max_length with
  | .error e => (st, .error e)
  | .ok full_text =>
    let new_text := String.mk (full_text.data.drop last_chars.length)
    let st1 := { st with suggestions_made := st.suggestions_made + 1 }
    (st1, .ok { completion := { prompt := last_chars, generated_text := new_text, full_text := full_text },
                stats := st1 })

/-- Lowercasing of a character list (the effect of `re.IGNORECASE` on the
ASCII letters occurring in the two patterns). -/
def lowerL (l : List Char) : List Char := l.map Char.toLower

/-- Case-insensitive equality of character lists. -/
def lowerEq (a b : List Char) : Bool := lowerL a == lowerL b

/-- Attempt to match `\b(\w+)\s+\1\b` (IGNORECASE) at the head of `s`
(the caller guarantees the word-boundary on the left).  Greedy `\w+` and
`\s+` are forced here: shortening `\w+` makes `\s+` face a word character
and shortening `\s+` makes the backreference face whitespace, so both
always consume their maximal runs.  Returns `(group 0, group 1)`. -/
def tryRepeatedAt (s : List Char) : Option (List Char × List Char) :=
  let w1 := s.takeWhile isWordChar
  if w1.isEmpty then none
  else
    let r1 := s.drop w1.length
    let gap := r1.takeWhile isSpaceChar
    if gap.isEmpty then none
    else
      let r2 := r1.drop gap.length
      let w2 := r2.take w1.length
      let after := r2.drop w1.length
      if w2.length == w1.length && lowerEq w1 w2 && (after.isEmpty || !(isWordChar (after.headD ' ')))
      then some (w1 ++ gap ++ w2, w1)
      else none

/-- Auxiliary-verb alternatives of the passive-voice pattern, lowercased. -/
def auxForms : List (List Char) :=
  ["am", "is", "are", "was", "were", "be", "been", "being"].map (fun s => s.data)

/-- Irregular past participles of the passive-voice pattern, lowercased. -/
def irregularForms : List (List Char) :=
  ["written", "done", "made", "said", "known", "gone", "taken"].map (fun s => s.data)

/-- Does a lowercased word match `\w+ed` as a whole word: at least three
characters ending in `ed`? -/
def endsEd (l : List Char) : Bool :=
  match l.reverse with
  | 'd' :: 'e' :: _ :: _ => true
  | _ => false

/-- Attempt to match the passive-voice pattern
`\b(?:am|is|are|was|were|be|been|being)\s+(\w+ed|written|done|made|said|known|gone|taken)\b`
(IGNORECASE) at the head of `s`.  The trailing word-boundary forces the
group to consume a whole word run, and `\s+` after the verb forces the
verb alternative to be a whole word run, so the alternation collapses to
run-level membership tests.  Returns `(group 0, group 1)`. -/
def tryPassiveAt (s : List Char) : Option (List Char × List Char) :=
  let w1 := s.takeWhile isWordChar
  if w1.isEmpty then none
  else if auxForms.contains (lowerL w1) then
    let r1 := s.drop w1.length
    let gap := r1.takeWhile isSpaceChar
    if gap.isEmpty then none
    else
      let r2 := r1.drop gap.length
      let w2 := r2.takeWhile isWordChar
      if w2.isEmpty then none
      else if endsEd (lowerL w2) || irregularForms.contains (lowerL w2)
      then some (w1 ++ gap ++ w2, w2)
      else none
  else none

/-- `re.finditer` driver: scan left to right, try the pattern at every
position carrying a left word-boundary (both patterns must start with a
word character, so a candidate position is one whose previous character is
not a word character), emit non-overlapping matches and resume right after
each match.  `prevW` records whether the previous character was a word
character.  The scan consumes at least one character per step, so running
it with the length of the list as fuel is exact: the fuel cannot run out
before the list does. -/
def scanMatchesAux (tryAt : List Char → Option (List Char × List Char)) :
    Nat → Bool → List Char → List (List Char × List Char)
  | 0, _, _ => []
  | _ + 1, _, [] => []
  | fuel + 1, prevW, c :: rest =>
    if prevW then scanMatchesAux tryAt fuel (isWordChar c) rest
    else
      match tryAt (c :: rest) with
      | some (g0, g1) => (g0, g1) :: scanMatchesAux tryAt fuel true (rest.drop (g0.length - 1))
      | none => scanMatchesAux tryAt fuel (isWordChar c) rest

/-- The finditer scan over a whole list. -/
def scanMatches (tryAt : List Char → Option (List Char × List Char))
    (prevW : Bool) (l : List Char) : List (List Char × List Char) :=
  scanMatchesAux tryAt l.length prevW l

/-- All matches of the repeated-word pattern over the text, as
`(group 0, group 1)` string pairs. -/
def findRepeatedMatches (text : String) : List (String × String) :=
  (scanMatches tryRepeatedAt false text.data).map (fun p => (String.mk p.1, String.mk p.2))

/-- All matches of the passive-voice pattern over the text, as
`(group 0, group 1)` string pairs. -/
def findPassiveMatches (text : String) : List (String × String) :=
  (scanMatches tryPassiveAt false text.data).map (fun p => (String.mk p.1, String.mk p.2))

/-- One entry of the `long_sentences` list of `/suggest`. -/
structure LongSentence where
  sentence : String
  word_count : Nat
deriving DecidableEq, Repr

/-- One entry of the `passive_voice` list of `/suggest` (the source keys
the second field `"match"`, a reserved word here). -/
structure PassiveEntry where
  sentence : String
  matched : String
deriving DecidableEq, Repr

/-- One entry of the `repeated_words` list of `/suggest`. -/
structure RepeatedEntry where
  sentence : String
  repeated_word : String
deriving DecidableEq, Repr

/-- The four suggestion lists of `/suggest`. -/
structure SuggestLists where
  long_sentences : List LongSentence
  passive_voice : List PassiveEntry
  repeated_words : List RepeatedEntry
  general_suggestions : List String
deriving DecidableEq, Repr

/-- Response of `POST /suggest`. -/
structure SuggestResponse where
  suggestions : SuggestLists
  suggestion_count : Nat
  stats : Stats
deriving DecidableEq, Repr

/-- The inner `for sentence in sentences: if sub in sentence: ...; break`
search: first sentence containing the matched substring, if any. -/
def findSentenceContaining (g0 : String) : List String → Option String
  | [] => none
  | s :: rest => if strContains s g0 then some s else findSentenceContaining g0 rest

/-- The passive-voice attachment loop of `suggest_improvements`. -/
def attachPassive (sentences : List String) : List (String × String) → List PassiveEntry
  | [] => []
  | (g0, _g1) :: ms =>
    match findSentenceContaining g0 sentences with
    | some s => { sentence := s, matched := g0 } :: attachPassive sentences ms
    | none => attachPassive sentences ms

/-- The repeated-word attachment loop of `suggest_improvements`. -/
def attachRepeated (sentences : List String) : List (String × String) → List RepeatedEntry
  | [] => []
  | (g0, g1) :: ms =>
    match findSentenceContaining g0 sentences with
    | some s => { sentence := s, repeated_word := g1 } :: attachRepeated sentences ms
    | none => attachRepeated sentences ms

/-- The general-suggestion block of `suggest_improvements`, from the sizes
of the two attached lists and the total word count. -/
def generalSuggestions (nLong nPassive words : Nat) : List String :=
  let gs0 : List String := []
  let gs1 := if nLong > 2
    then gs0 ++ ["Consider breaking long sentences into shorter ones for clarity."] else gs0
  let gs2 := if nPassive > 2
    then gs1 ++ ["Try using more active voice to make your writing more engaging and direct."] else gs1
  if words < 100
  then gs2 ++ ["Your text is quite short. Consider expanding your ideas for more depth."]
  else if words > 1000
  then gs2 ++ ["Your text is quite long. Consider organizing it into clear sections."]
  else gs2

/-- Handler of `POST /suggest` (`suggest_improvements` in the source).
`seg` is the external sentence segmenter (`nltk.sent_tokenize`); its error
case is a raised exception, turned into a 500 response after the
`words_checked` update, exactly as in the source. -/
def suggest_improvements (seg : String → Except String (List String))
    (st : Stats) (text : String) : Stats × Except String SuggestResponse :=
  let words := wordCount text
  let st1 := { st with words_checked := st.words_checked + words }
  match seg text with
  | .error e => (st1, .error e)
  | .ok sentences =>
    let long_sentences := sentences.filterMap (fun sentence =>
      let wc := wordCount sentence
      if wc > 25 then some { sentence := sentence, word_count := wc } else none)
    let passive_voice := attachPassive sentences (findPassiveMatches text)
    let repeated_words := attachRepeated sentences (findRepeatedMatches text)
    let general_suggestions := generalSuggestions long_sentences.length passive_voice.length words
    let suggestion_count := long_sentences.length + passive_voice.length + repeated_words.length + general_suggestions.length
    let st2 := { st1 with suggestions_made := st1.suggestions_made + suggestion_count }
    (st2, .ok { suggestions := { long_sentences := long_sentences, passive_voice := passive_voice,
                                 repeated_words := repeated_words, general_suggestions := general_suggestions },
                suggestion_count := suggestion_count, stats := st2 })

/-- Response of `POST /analyze`. -/
structure AnalyzeResponse where
  analysis : Analysis
  readability_issues : List Issue
  stats : Stats
deriving DecidableEq, Repr

/-- The valid-paragraph filter of `analyze_text`:
`[p for p in text.split('\n\n') if p.strip() and len(p.strip()) > 3]`. -/
def validParagraphs (text : String) : List String :=
  (splitParagraphs text).filter
    (fun p => !(stripL p.data).isEmpty && decide ((stripL p.data).length > 3))

/-- The per-paragraph sentiment loop body of `analyze_text`: truncate the
paragraph to 512 characters for the model and fall back to the neutral
placeholder when that paragraph's model call fails. -/
def mkSentimentResult (analyzer : String → Except String Sentiment) (para : String) : SentimentResult :=
  let preview := if para.length > 50 then String.mk (para.data.take 50) ++ "..." else para
  match analyzer (String.mk (para.data.take 512)) with
  | .ok s => { preview := preview, full_paragraph := para, label := s.label, score := s.score }
  | .error _ => { preview := preview, full_paragraph := para, label := "NEUTRAL", score := (1 : ℚ) / 2 }

/-- The readability block of `analyze_text`. -/
def readabilityIssues (avg_sentence_length : ℚ) (sentence_count : Nat) : List Issue :=
  let ri0 : List Issue := []
  if avg_sentence_length > 25 then
    ri0 ++ [{ issue := "long_sentences",
              message := "Sentences are quite long on average. Consider breaking some into shorter ones for better readability." }]
  else if avg_sentence_length < 10 ∧ sentence_count > 3 then
    ri0 ++ [{ issue := "short_sentences",
              message := "Sentences are quite short on average. Consider combining some related ideas for better flow." }]
  else ri0

/-- `sum(1 for item in sentiment_results if item["label"] == "POSITIVE")`. -/
def positiveCount (l : List SentimentResult) : Nat := l.countP (fun it => it.label == "POSITIVE")

/-- `sum(1 for item in sentiment_results if item["label"] == "NEGATIVE")`. -/
def negativeCount (l : List SentimentResult) : Nat := l.countP (fun it => it.label == "NEGATIVE")

/-- The overall-sentiment classifier of `analyze_text`. -/
def overallFromCounts (positive_count negative_count : Nat) : String :=
  if positive_count > negative_count then "Mostly Positive"
  else if negative_count > positive_count then "Mostly Negative"
  else "Neutral"

/-- Handler of `POST /analyze` (`analyze_text` in the source).  `seg` is
the external sentence segmenter: the source calls it twice (once for the
count, once for the sentence list), each call guarded by `text.strip()`,
the first before and the second after the `words_checked` update.
`analyzer` is the external sentiment model, consulted per valid paragraph
with local error recovery. -/
def analyze_text (seg : String → Except String (List String))
    (analyzer : String → Except String Sentiment)
    (store : Store) (text : String) : Store × Except String AnalyzeResponse :=
  let char_count := text.length
  let word_count := wordCount text
  let sentenceCountE : Except String Nat :=
    if stripNonempty text then (seg text).map List.length else .ok 0
  match sentenceCountE with
  | .error e => (store, .error e)
  | .ok sentence_count =>
    let st1 := { store.stats with words_checked := store.stats.words_checked + word_count }
    let words := wordRuns text.data
    let avg_word_length : ℚ := ((words.map List.length).sum : ℚ) / ((max 1 words.length : ℕ) : ℚ)
    let sentencesE : Except String (List String) :=
      if stripNonempty text then seg text else .ok []
    match sentencesE with
    | .error e => ({ store with stats := st1 }, .error e)
    | .ok sentences =>
      let avg_sentence_length : ℚ :=
        ((sentences.map wordCount).sum : ℚ) / ((max 1 sentences.length : ℕ) : ℚ)
      let sentiment_results := (validParagraphs text).map (mkSentimentResult analyzer)
      let readability_issues := readabilityIssues avg_sentence_length sentence_count
      let positive_count := positiveCount sentiment_results
      let negative_count := negativeCount sentiment_results
      let overall_sentiment := overallFromCounts positive_count negative_count
      let analysis : Analysis :=
        { char_count := char_count, word_count := word_count, sentence_count := sentence_count,
          avg_word_length := avg_word_length, avg_sentence_length := avg_sentence_length,
          overall_sentiment := overall_sentiment, positive_paragraphs := positive_count,
          negative_paragraphs := negative_count, sentiment_results := sentiment_results }
      let store2 : Store :=
        { stats := st1,
          analysis_results := dictInsert (String.mk (text.data.take 100)) analysis store.analysis_results }
      (store2, .ok { analysis := analysis, readability_issues := readability_issues, stats := st1 })

/-- Modelled from the spec: the external sentence segmenter
(`nltk.sent_tokenize`, an out-of-repository collaborator) performs
sentence-boundary segmentation.  This model closes a sentence at a
terminator (`.`, `!`, `?`) followed by whitespace or end of text, dropping
the single boundary blank; text without a terminator is one sentence.
`acc` is the current sentence reversed. -/
def splitSentencesAux (acc : List Char) : List Char → List (List Char)
  | [] => if acc.isEmpty then [] else [acc.reverse]
  | [c] => [(c :: acc).reverse]
  | c :: d :: rest =>
    if c == '.' || c == '!' || c == '?' then
      if isSpaceChar d then (c :: acc).reverse :: splitSentencesAux [] rest
      else splitSentencesAux (c :: acc) (d :: rest)
    else splitSentencesAux (c :: acc) (d :: rest)

/-- Modelled from the spec: `nltk.sent_tokenize` as a total function. -/
def sentTokenizeModel (s : String) : List String :=
  (splitSentencesAux [] s.data).map (fun l => String.mk l)

/-- The modelled segmenter wrapped as a never-failing collaborator. -/
def sentTokenizeModelE (s : String) : Except String (List String) := .ok (sentTokenizeModel s)

/-- A grammar tool whose every invocation raises (for exercising the 500
path of `/check-grammar`). -/
def alwaysFailTool : String → Except String (List GrammarMatch) := fun _ => .error "boom"

/-- A sentence segmenter whose every invocation raises (for exercising the
500 paths of `/suggest` and `/analyze`). -/
def alwaysFailSeg : String → Except String (List String) := fun _ => .error "segfail"

/-- A sentiment model that always answers POSITIVE with full confidence. -/
def posAnalyzer : String → Except String Sentiment := fun _ => .ok { label := "POSITIVE", score := 1 }

/-- A text generator that always returns a fixed completion. -/
def okGen : String → Nat → Except String String := fun _ _ => .ok "hello"

/-- A sentiment model whose every invocation raises. -/
def failAnalyzer : String → Except String Sentiment := fun _ => .error "down"

/-! ### Helper lemmas -/

theorem space_not_word (c : Char) (h : isSpaceChar c = true) : isWordChar c = false := by
  simp only [isSpaceChar, Bool.or_eq_true, beq_iff_eq] at h
  rcases h with ((((h | h) | h) | h) | h) | h <;> subst h <;> decide

theorem wordRunsAux_all_space (s : List Char) (hs : ∀ c ∈ s, isSpaceChar c = true) (w : List Char) :
    wordRunsAux w s = wordRunsAux w [] := by
  induction s generalizing w with
  | nil => rfl
  | cons c t ih =>
    have hc : isWordChar c = false := space_not_word c (hs c (by simp))
    have ht : ∀ c ∈ t, isSpaceChar c = true := fun x hx => hs x (by simp [hx])
    by_cases hw : w.isEmpty
    · simp only [wordRunsAux, hc, Bool.false_eq_true, if_false, hw, if_true]
      rw [ih ht []]
      simp [wordRunsAux, hw]
    · simp only [wordRunsAux, hc, Bool.false_eq_true, if_false, hw, if_false]
      rw [ih ht []]
      simp [wordRunsAux, hw]

theorem wordRunsAux_append_space (l s : List Char) (hs : ∀ c ∈ s, isSpaceChar c = true)
    (w : List Char) : wordRunsAux w (l ++ s) = wordRunsAux w l := by
  induction l generalizing w with
  | nil => simpa using wordRunsAux_all_space s hs w
  | cons c t ih =>
    simp only [List.cons_append, wordRunsAux]
    by_cases hc : isWordChar c <;> by_cases hw : w.isEmpty <;> simp [hc, hw, ih]

theorem wordRunsAux_prepend_space (p l : List Char) (hp : ∀ c ∈ p, isSpaceChar c = true) :
    wordRunsAux [] (p ++ l) = wordRunsAux [] l := by
  induction p with
  | nil => rfl
  | cons c t ih =>
    have hc : isWordChar c = false := space_not_word c (hp c (by simp))
    have ht : ∀ x ∈ t, isSpaceChar x = true := fun x hx => hp x (by simp [hx])
    simp only [List.cons_append, wordRunsAux, hc, Bool.false_eq_true, if_false,
      List.isEmpty_nil, if_true]
    exact ih ht

/-- Claim C6: the word count of the metrics routine is invariant under
adding leading and trailing whitespace. -/
theorem claim_C6 (t p s : String) (hp : ∀ c ∈ p.data, isSpaceChar c = true)
    (hs : ∀ c ∈ s.data, isSpaceChar c = true) :
    wordCount (p ++ t ++ s) = wordCount t := by
  show (wordRuns (p.data ++ t.data ++ s.data)).length = (wordRuns t.data).length
  unfold wordRuns
  rw [List.append_assoc, wordRunsAux_prepend_space p.data (t.data ++ s.data) hp,
    wordRunsAux_append_space t.data s.data hs]

/-- Witness for C6 at concrete whitespace paddings. -/
theorem claim_C6_witness : wordCount (" " ++ "ab cd" ++ "\n\t") = wordCount "ab cd" :=
  claim_C6 "ab cd" " " "\n\t" (by decide) (by decide)

/-- Claim C8: `/reset` returns all three counters at exactly zero and
leaves the store with zero counters and an empty analysis cache. -/
theorem claim_C8 (store : Store) :
    (reset_stats store).2.stats = { words_checked := 0, grammar_errors_found := 0, suggestions_made := 0 }
    ∧ (reset_stats store).1.stats = { words_checked := 0, grammar_errors_found := 0, suggestions_made := 0 }
    ∧ (reset_stats store).1.analysis_results = [] :=
  ⟨rfl, rfl, rfl⟩

/-- Claim C10: a successful `/complete` request adds exactly one to
`suggestions_made` and leaves the other two counters unchanged. -/
theorem claim_C10 (gen : String → Nat → Except String String) (st : Stats) (text : String)
    (max_length : Nat) (st' : Stats) (r : CompleteResponse)
    (h : complete_text gen st text max_length = (st', Except.ok r)) :
    st'.suggestions_made = st.suggestions_made + 1
    ∧ st'.words_checked = st.words_checked
    ∧ st'.grammar_errors_found = st.grammar_errors_found := by
  simp only [complete_text] at h
  split at h
  · exact absurd (congrArg Prod.snd h) (by simp)
  · have h1 := congrArg Prod.fst h
    simp only at h1
    subst h1
    exact ⟨rfl, rfl, rfl⟩

/-- Witness for C10: a fixed generator succeeding on a fixed text. -/
theorem claim_C10_witness :
    ∃ st' r, complete_text okGen ⟨2, 3, 4⟩ "hi" 50 = (st', Except.ok r)
      ∧ st'.suggestions_made = (5 : Nat) ∧ st'.words_checked = (2 : Nat)
      ∧ st'.grammar_errors_found = (3 : Nat) := by
  refine ⟨⟨2, 3, 5⟩, _, rfl, ?_, rfl, rfl⟩
  have := claim_C10 okGen ⟨2, 3, 4⟩ "hi" 50 ⟨2, 3, 5⟩
    { completion := { prompt := "hi", generated_text := "llo", full_text := "hello" }, stats := ⟨2, 3, 5⟩ } rfl
  exact this.1

/-- Claim C1, counterexample: a `/check-grammar` request on which the
external grammar tool raises returns a 500 response, yet the stats differ
from their values before the request — `words_checked` was already bumped
by the word count of the text before the failing call. -/
theorem claim_C1_counterexample :
    check_grammar alwaysFailTool ⟨0, 0, 0⟩ "hi" = (⟨1, 0, 0⟩, Except.error "boom")
    ∧ (⟨1, 0, 0⟩ : Stats) ≠ (⟨0, 0, 0⟩ : Stats) :=
  ⟨rfl, by decide⟩

/-- Claim C1 as amended: on any 500 failure, `grammar_errors_found` and
`suggestions_made` are unchanged; for `/analyze` the whole store is
unchanged (its only failure point precedes the stats update), while for
`/check-grammar` and `/suggest` the `words_checked` counter has already
been incremented by the request's word count before the failing external
call. -/
theorem claim_C1_amended :
    (∀ tool st text st' e, check_grammar tool st text = (st', Except.error e) →
      st'.words_checked = st.words_checked + wordCount text
      ∧ st'.grammar_errors_found = st.grammar_errors_found
      ∧ st'.suggestions_made = st.suggestions_made)
    ∧ (∀ seg st text st' e, suggest_improvements seg st text = (st', Except.error e) →
      st'.words_checked = st.words_checked + wordCount text
      ∧ st'.grammar_errors_found = st.grammar_errors_found
      ∧ st'.suggestions_made = st.suggestions_made)
    ∧ (∀ seg analyzer store text store' e,
      analyze_text seg analyzer store text = (store', Except.error e) → store' = store) := by
  refine ⟨?_, ?_, ?_⟩
  · intro tool st text st' e h
    simp only [check_grammar] at h
    split at h
    · have h1 := congrArg Prod.fst h
      simp only at h1
      subst h1
      exact ⟨rfl, rfl, rfl⟩
    · exact absurd (congrArg Prod.snd h) (by simp)
  · intro seg st text st' e h
    simp only [suggest_improvements] at h
    split at h
    · have h1 := congrArg Prod.fst h
      simp only at h1
      subst h1
      exact ⟨rfl, rfl, rfl⟩
    · exact absurd (congrArg Prod.snd h) (by simp)
  · intro seg analyzer store text store' e h
    simp only [analyze_text] at h
    split at h
    · have h1 := congrArg Prod.fst h
      simp only at h1
      exact h1.symm
    · rename_i sentence_count hcount
      split at h
      · rename_i e2 hsent
        by_cases hstrip : stripNonempty text = true
        · simp only [hstrip, if_true] at hcount hsent
          cases hseg : seg text with
          | error e3 => simp [hseg, Except.map] at hcount
          | ok l => simp [hseg] at hsent
        · simp only [hstrip] at hsent
          simp at hsent
      · exact absurd (congrArg Prod.snd h) (by simp)

/-- Witness for the amended C1 at concrete failing collaborators. -/
theorem claim_C1_amended_witness :
    ((⟨1, 0, 0⟩ : Stats).words_checked = (⟨0, 0, 0⟩ : Stats).words_checked + wordCount "hi"
      ∧ (⟨1, 0, 0⟩ : Stats).grammar_errors_found = (⟨0, 0, 0⟩ : Stats).grammar_errors_found
      ∧ (⟨1, 0, 0⟩ : Stats).suggestions_made = (⟨0, 0, 0⟩ : Stats).suggestions_made)
    ∧ ((⟨1, 0, 0⟩ : Stats).words_checked = (⟨0, 0, 0⟩ : Stats).words_checked + wordCount "hi"
      ∧ (⟨1, 0, 0⟩ : Stats).grammar_errors_found = (⟨0, 0, 0⟩ : Stats).grammar_errors_found
      ∧ (⟨1, 0, 0⟩ : Stats).suggestions_made = (⟨0, 0, 0⟩ : Stats).suggestions_made)
    ∧ (⟨⟨0, 0, 0⟩, []⟩ : Store) = ⟨⟨0, 0, 0⟩, []⟩ :=
  ⟨claim_C1_amended.1 alwaysFailTool ⟨0, 0, 0⟩ "hi" ⟨1, 0, 0⟩ "boom" rfl,
   claim_C1_amended.2.1 alwaysFailSeg ⟨0, 0, 0⟩ "hi" ⟨1, 0, 0⟩ "segfail" rfl,
   claim_C1_amended.2.2 alwaysFailSeg posAnalyzer ⟨⟨0, 0, 0⟩, []⟩ "hi" ⟨⟨0, 0, 0⟩, []⟩ "segfail" rfl⟩

theorem generalSuggestions_mem (a b w : Nat) :
    ("Consider breaking long sentences into shorter ones for clarity." ∈ generalSuggestions a b w ↔ 2 < a)
    ∧ ("Try using more active voice to make your writing more engaging and direct." ∈ generalSuggestions a b w ↔ 2 < b)
    ∧ ("Your text is quite short. Consider expanding your ideas for more depth." ∈ generalSuggestions a b w ↔ w < 100)
    ∧ ("Your text is quite long. Consider organizing it into clear sections." ∈ generalSuggestions a b w ↔ 1000 < w) := by
  unfold generalSuggestions
  split_ifs <;> simp_all <;> omega

/-- Claim C2: on every accepted `/suggest` request the returned
`suggestion_count` is the sum of the four list lengths, that count is
added to `suggestions_made`, the four general suggestions are present
exactly under their fixed thresholds, and the two word-count based
suggestions are mutually exclusive. -/
theorem claim_C2 (seg : String → Except String (List String)) (st : Stats) (text : String)
    (st' : Stats) (r : SuggestResponse)
    (h : suggest_improvements seg st text = (st', Except.ok r)) :
    r.suggestion_count = r.suggestions.long_sentences.length + r.suggestions.passive_voice.length
        + r.suggestions.repeated_words.length + r.suggestions.general_suggestions.length
    ∧ st'.suggestions_made = st.suggestions_made + r.suggestion_count
    ∧ ("Consider breaking long sentences into shorter ones for clarity."
        ∈ r.suggestions.general_suggestions ↔ 2 < r.suggestions.long_sentences.length)
    ∧ ("Try using more active voice to make your writing more engaging and direct."
        ∈ r.suggestions.general_suggestions ↔ 2 < r.suggestions.passive_voice.length)
    ∧ ("Your text is quite short. Consider expanding your ideas for more depth."
        ∈ r.suggestions.general_suggestions ↔ wordCount text < 100)
    ∧ ("Your text is quite long. Consider organizing it into clear sections."
        ∈ r.suggestions.general_suggestions ↔ 1000 < wordCount text)
    ∧ ¬("Your text is quite short. Consider expanding your ideas for more depth."
          ∈ r.suggestions.general_suggestions
        ∧ "Your text is quite long. Consider organizing it into clear sections."
          ∈ r.suggestions.general_suggestions) := by
  simp only [suggest_improvements] at h
  split at h
  · exact absurd (congrArg Prod.snd h) (by simp)
  · have h1 := congrArg Prod.fst h
    have h2 := congrArg Prod.snd h
    simp only [Except.ok.injEq] at h1 h2
    subst h1
    subst h2
    refine ⟨rfl, rfl, ?_, ?_, ?_, ?_, ?_⟩
    · exact (generalSuggestions_mem _ _ _).1
    · exact (generalSuggestions_mem _ _ _).2.1
    · exact (generalSuggestions_mem _ _ _).2.2.1
    · exact (generalSuggestions_mem _ _ _).2.2.2
    · intro hboth
      have ha := (generalSuggestions_mem _ _ _).2.2.1.mp hboth.1
      have hb := (generalSuggestions_mem _ _ _).2.2.2.mp hboth.2
      omega

/-- Witness for C2: a concrete accepted `/suggest` request. -/
theorem claim_C2_witness :
    ∃ st' r, suggest_improvements sentTokenizeModelE ⟨0, 0, 0⟩ "" = (st', Except.ok r)
      ∧ st'.suggestions_made = (⟨0, 0, 0⟩ : Stats).suggestions_made + r.suggestion_count
      ∧ ("Your text is quite short. Consider expanding your ideas for more depth."
          ∈ r.suggestions.general_suggestions ↔ wordCount "" < 100) := by
  have hrun : suggest_improvements sentTokenizeModelE ⟨0, 0, 0⟩ "" =
      (⟨0, 0, 1⟩, Except.ok
        { suggestions :=
            { long_sentences := [], passive_voice := [], repeated_words := [],
              general_suggestions :=
                ["Your text is quite short. Consider expanding your ideas for more depth."] },
          suggestion_count := 1, stats := ⟨0, 0, 1⟩ }) := rfl
  have hc := claim_C2 sentTokenizeModelE ⟨0, 0, 0⟩ "" _ _ hrun
  exact ⟨⟨0, 0, 1⟩, _, hrun, hc.2.1, hc.2.2.2.2.1⟩

theorem findSentenceContaining_eq_find (g0 : String) (ss : List String) :
    findSentenceContaining g0 ss = ss.find? (fun s => strContains s g0) := by
  induction ss with
  | nil => rfl
  | cons s t ih =>
    by_cases h : strContains s g0 <;> simp [findSentenceContaining, List.find?, h, ih]

theorem attachPassive_eq (ss : List String) (ms : List (String × String)) :
    attachPassive ss ms = ms.filterMap
      (fun m => (ss.find? (fun s => strContains s m.1)).map (fun s => PassiveEntry.mk s m.1)) := by
  induction ms with
  | nil => rfl
  | cons m t ih =>
    obtain ⟨g0, g1⟩ := m
    simp only [attachPassive, List.filterMap_cons]
    rw [findSentenceContaining_eq_find g0 ss]
    cases h : ss.find? (fun s => strContains s g0) <;> simp [h, ih]

theorem attachRepeated_eq (ss : List String) (ms : List (String × String)) :
    attachRepeated ss ms = ms.filterMap
      (fun m => (ss.find? (fun s => strContains s m.1)).map (fun s => RepeatedEntry.mk s m.2)) := by
  induction ms with
  | nil => rfl
  | cons m t ih =>
    obtain ⟨g0, g1⟩ := m
    simp only [attachRepeated, List.filterMap_cons]
    rw [findSentenceContaining_eq_find g0 ss]
    cases h : ss.find? (fun s => strContains s g0) <;> simp [h, ih]

/-- Claim C4: on every accepted `/suggest` request, each passive-voice and
each repeated-word match is attached to the first sentence (in original
order) containing its exact matched substring, matches contained in no
sentence being silently dropped; and the input
"The cat cat sat on on the mat" surfaces at least the two repeated-word
suggestions for "cat" and "on". -/
theorem claim_C4 :
    (∀ (seg : String → Except String (List String)) (st : Stats) (text : String)
        (st' : Stats) (r : SuggestResponse) (sents : List String),
      seg text = Except.ok sents → suggest_improvements seg st text = (st', Except.ok r) →
      r.suggestions.passive_voice = (findPassiveMatches text).filterMap
          (fun m => (sents.find? (fun s => strContains s m.1)).map (fun s => PassiveEntry.mk s m.1))
      ∧ r.suggestions.repeated_words = (findRepeatedMatches text).filterMap
          (fun m => (sents.find? (fun s => strContains s m.1)).map (fun s => RepeatedEntry.mk s m.2)))
    ∧ (∃ st' r, suggest_improvements sentTokenizeModelE ⟨0, 0, 0⟩ "The cat cat sat on on the mat"
          = (st', Except.ok r)
        ∧ RepeatedEntry.mk "The cat cat sat on on the mat" "cat" ∈ r.suggestions.repeated_words
        ∧ RepeatedEntry.mk "The cat cat sat on on the mat" "on" ∈ r.suggestions.repeated_words) := by
  constructor
  · intro seg st text st' r sents hseg h
    simp only [suggest_improvements, hseg] at h
    have h2 := congrArg Prod.snd h
    simp only [Except.ok.injEq] at h2
    subst h2
    exact ⟨attachPassive_eq sents (findPassiveMatches text),
      attachRepeated_eq sents (findRepeatedMatches text)⟩
  · have hrun : suggest_improvements sentTokenizeModelE ⟨0, 0, 0⟩ "The cat cat sat on on the mat"
        = (⟨8, 0, 3⟩, Except.ok
          { suggestions :=
              { long_sentences := [], passive_voice := [],
                repeated_words :=
                  [{ sentence := "The cat cat sat on on the mat", repeated_word := "cat" },
                   { sentence := "The cat cat sat on on the mat", repeated_word := "on" }],
                general_suggestions :=
                  ["Your text is quite short. Consider expanding your ideas for more depth."] },
            suggestion_count := 3, stats := ⟨8, 0, 3⟩ }) := rfl
    exact ⟨_, _, hrun, by simp, by simp⟩

/-- Witness for C4: the attachment rule applied on a concrete accepted
request with a known segmentation. -/
theorem claim_C4_witness :
    ∃ st' r, suggest_improvements sentTokenizeModelE ⟨0, 0, 0⟩ "The cat cat sat on on the mat"
        = (st', Except.ok r)
      ∧ r.suggestions.repeated_words = (findRepeatedMatches "The cat cat sat on on the mat").filterMap
          (fun m => ((["The cat cat sat on on the mat"] : List String).find?
            (fun s => strContains s m.1)).map (fun s => RepeatedEntry.mk s m.2)) := by
  have hrun : suggest_improvements sentTokenizeModelE ⟨0, 0, 0⟩ "The cat cat sat on on the mat"
      = (⟨8, 0, 3⟩, Except.ok
        { suggestions :=
            { long_sentences := [], passive_voice := [],
              repeated_words :=
                [{ sentence := "The cat cat sat on on the mat", repeated_word := "cat" },
                 { sentence := "The cat cat sat on on the mat", repeated_word := "on" }],
              general_suggestions :=
                ["Your text is quite short. Consider expanding your ideas for more depth."] },
          suggestion_count := 3, stats := ⟨8, 0, 3⟩ }) := rfl
  exact ⟨_, _, hrun, (claim_C4.1 sentTokenizeModelE ⟨0, 0, 0⟩ "The cat cat sat on on the mat"
    _ _ ["The cat cat sat on on the mat"] rfl hrun).2⟩

theorem analyze_ok_shape (seg : String → Except String (List String))
    (analyzer : String → Except String Sentiment) (store : Store) (text : String)
    (store' : Store) (r : AnalyzeResponse)
    (h : analyze_text seg analyzer store text = (store', Except.ok r)) :
    r.analysis.sentiment_results = (validParagraphs text).map (mkSentimentResult analyzer)
    ∧ r.analysis.positive_paragraphs = positiveCount r.analysis.sentiment_results
    ∧ r.analysis.negative_paragraphs = negativeCount r.analysis.sentiment_results
    ∧ r.analysis.overall_sentiment = overallFromCounts (positiveCount r.analysis.sentiment_results)
        (negativeCount r.analysis.sentiment_results)
    ∧ r.readability_issues = readabilityIssues r.analysis.avg_sentence_length r.analysis.sentence_count := by
  simp only [analyze_text] at h
  split at h
  · exact absurd (congrArg Prod.snd h) (by simp)
  · split at h
    · exact absurd (congrArg Prod.snd h) (by simp)
    · have h2 := congrArg Prod.snd h
      simp only [Except.ok.injEq] at h2
      subst h2
      exact ⟨rfl, rfl, rfl, rfl, rfl⟩

theorem readability_shape (avg : ℚ) (sc : Nat) :
    ((∃ i ∈ readabilityIssues avg sc, i.issue = "long_sentences") ↔ 25 < avg)
    ∧ ((∃ i ∈ readabilityIssues avg sc, i.issue = "short_sentences")
        ↔ (avg < 10 ∧ 3 < sc ∧ ¬ 25 < avg))
    ∧ (¬ 25 < avg ∧ ¬(avg < 10 ∧ 3 < sc) → readabilityIssues avg sc = [])
    ∧ (readabilityIssues avg sc).length ≤ 1 := by
  unfold readabilityIssues
  split_ifs with h1 h2 <;> simp_all

theorem overallFromCounts_shape (p n : Nat) :
    (overallFromCounts p n = "Mostly Positive" ↔ n < p)
    ∧ (overallFromCounts p n = "Mostly Negative" ↔ p < n)
    ∧ (overallFromCounts p n = "Neutral" ↔ p = n) := by
  unfold overallFromCounts
  split_ifs with h1 h2 <;> refine ⟨?_, ?_, ?_⟩ <;> simp_all <;> omega

/-- Claim C3: on every accepted `/analyze` request, the long-sentences
issue appears exactly when the average sentence length exceeds 25, the
short-sentences issue exactly when the average is below 10 with more than
3 sentences and the first rule did not fire, the list is empty otherwise,
and at most one issue is ever present. -/
theorem claim_C3 (seg : String → Except String (List String))
    (analyzer : String → Except String Sentiment) (store : Store) (text : String)
    (store' : Store) (r : AnalyzeResponse)
    (h : analyze_text seg analyzer store text = (store', Except.ok r)) :
    ((∃ i ∈ r.readability_issues, i.issue = "long_sentences")
        ↔ 25 < r.analysis.avg_sentence_length)
    ∧ ((∃ i ∈ r.readability_issues, i.issue = "short_sentences")
        ↔ (r.analysis.avg_sentence_length < 10 ∧ 3 < r.analysis.sentence_count
            ∧ ¬ 25 < r.analysis.avg_sentence_length))
    ∧ (¬ 25 < r.analysis.avg_sentence_length
        ∧ ¬(r.analysis.avg_sentence_length < 10 ∧ 3 < r.analysis.sentence_count)
        → r.readability_issues = [])
    ∧ r.readability_issues.length ≤ 1 := by
  obtain ⟨-, -, -, -, hri⟩ := analyze_ok_shape seg analyzer store text store' r h
  rw [hri]
  exact readability_shape _ _

/-- Claim C7: the overall sentiment of `/analyze` is "Mostly Positive"
exactly when POSITIVE-labelled paragraphs outnumber NEGATIVE ones,
"Mostly Negative" exactly in the opposite case, "Neutral" exactly on a
tie. -/
theorem claim_C7 (seg : String → Except String (List String))
    (analyzer : String → Except String Sentiment) (store : Store) (text : String)
    (store' : Store) (r : AnalyzeResponse)
    (h : analyze_text seg analyzer store text = (store', Except.ok r)) :
    (r.analysis.overall_sentiment = "Mostly Positive"
        ↔ negativeCount r.analysis.sentiment_results < positiveCount r.analysis.sentiment_results)
    ∧ (r.analysis.overall_sentiment = "Mostly Negative"
        ↔ positiveCount r.analysis.sentiment_results < negativeCount r.analysis.sentiment_results)
    ∧ (r.analysis.overall_sentiment = "Neutral"
        ↔ positiveCount r.analysis.sentiment_results = negativeCount r.analysis.sentiment_results) := by
  obtain ⟨-, -, -, hov, -⟩ := analyze_ok_shape seg analyzer store text store' r h
  rw [hov]
  exact overallFromCounts_shape _ _

theorem mkSentimentResult_full (a : String → Except String Sentiment) (p : String) :
    (mkSentimentResult a p).full_paragraph = p := by
  unfold mkSentimentResult
  cases ha : a (String.mk (p.data.take 512)) <;> simp [ha]

theorem validParagraphs_eq_filter (text : String) :
    validParagraphs text = (splitParagraphs text).filter (fun p => decide (3 < (pyStrip p).length)) := by
  unfold validParagraphs
  apply List.filter_congr
  intro p _
  show (!(stripL p.data).isEmpty && decide ((stripL p.data).length > 3))
    = decide (3 < (pyStrip p).length)
  have hlen : (pyStrip p).length = (stripL p.data).length := rfl
  rw [hlen]
  cases hsl : stripL p.data with
  | nil => simp
  | cons a t => simp

/-- Claim C9: a paragraph of `/analyze` receives a per-paragraph sentiment
entry exactly when its stripped text is longer than 3 characters, and the
positive/negative tallies range over exactly those entries. -/
theorem claim_C9 (seg : String → Except String (List String))
    (analyzer : String → Except String Sentiment) (store : Store) (text : String)
    (store' : Store) (r : AnalyzeResponse)
    (h : analyze_text seg analyzer store text = (store', Except.ok r)) :
    r.analysis.sentiment_results.map SentimentResult.full_paragraph
        = (splitParagraphs text).filter (fun p => decide (3 < (pyStrip p).length))
    ∧ r.analysis.positive_paragraphs = positiveCount r.analysis.sentiment_results
    ∧ r.analysis.negative_paragraphs = negativeCount r.analysis.sentiment_results := by
  obtain ⟨hsr, hp, hn, -, -⟩ := analyze_ok_shape seg analyzer store text store' r h
  refine ⟨?_, hp, hn⟩
  rw [hsr, List.map_map, ← validParagraphs_eq_filter]
  have : (SentimentResult.full_paragraph ∘ mkSentimentResult analyzer) = id := by
    funext p
    exact mkSentimentResult_full analyzer p
  rw [this, List.map_id]

theorem analyze_ok_exists (seg : String → Except String (List String))
    (analyzer : String → Except String Sentiment) (store : Store) (text : String)
    (sents : List String) (hseg : seg text = Except.ok sents) :
    ∃ store' r, analyze_text seg analyzer store text = (store', Except.ok r) := by
  simp only [analyze_text]
  by_cases hstrip : stripNonempty text = true
  · simp only [hstrip, if_true, hseg, Except.map]
    exact ⟨_, _, rfl⟩
  · simp only [Bool.not_eq_true] at hstrip
    simp only [hstrip, Bool.false_eq_true, if_false]
    exact ⟨_, _, rfl⟩

/-- Witness for C3: a concrete accepted `/analyze` request. -/
theorem claim_C3_witness :
    ∃ store' r, analyze_text sentTokenizeModelE posAnalyzer ⟨⟨0, 0, 0⟩, []⟩ "Hi."
        = (store', Except.ok r)
      ∧ ((∃ i ∈ r.readability_issues, i.issue = "long_sentences")
          ↔ 25 < r.analysis.avg_sentence_length)
      ∧ r.readability_issues.length ≤ 1 := by
  obtain ⟨store', r, hrun⟩ := analyze_ok_exists sentTokenizeModelE posAnalyzer
    ⟨⟨0, 0, 0⟩, []⟩ "Hi." ["Hi."] rfl
  have hc := claim_C3 sentTokenizeModelE posAnalyzer ⟨⟨0, 0, 0⟩, []⟩ "Hi." store' r hrun
  exact ⟨store', r, hrun, hc.1, hc.2.2.2⟩

/-- Witness for C7: a concrete accepted `/analyze` request. -/
theorem claim_C7_witness :
    ∃ store' r, analyze_text sentTokenizeModelE posAnalyzer ⟨⟨0, 0, 0⟩, []⟩ "Nice work. Good."
        = (store', Except.ok r)
      ∧ (r.analysis.overall_sentiment = "Mostly Positive"
          ↔ negativeCount r.analysis.sentiment_results < positiveCount r.analysis.sentiment_results) := by
  obtain ⟨store', r, hrun⟩ := analyze_ok_exists sentTokenizeModelE posAnalyzer
    ⟨⟨0, 0, 0⟩, []⟩ "Nice work. Good." ["Nice work.", "Good."] rfl
  have hc := claim_C7 sentTokenizeModelE posAnalyzer ⟨⟨0, 0, 0⟩, []⟩ "Nice work. Good." store' r hrun
  exact ⟨store', r, hrun, hc.1⟩

/-- Witness for C9: a concrete accepted `/analyze` request with one
paragraph long enough to be analyzed and one too short. -/
theorem claim_C9_witness :
    ∃ store' r, analyze_text sentTokenizeModelE posAnalyzer ⟨⟨0, 0, 0⟩, []⟩ "Hi there!\n\nok"
        = (store', Except.ok r)
      ∧ r.analysis.sentiment_results.map SentimentResult.full_paragraph
          = (splitParagraphs "Hi there!\n\nok").filter (fun p => decide (3 < (pyStrip p).length)) := by
  obtain ⟨store', r, hrun⟩ := analyze_ok_exists sentTokenizeModelE posAnalyzer
    ⟨⟨0, 0, 0⟩, []⟩ "Hi there!\n\nok" (sentTokenizeModel "Hi there!\n\nok") rfl
  have hc := claim_C9 sentTokenizeModelE posAnalyzer ⟨⟨0, 0, 0⟩, []⟩ "Hi there!\n\nok" store' r hrun
  exact ⟨store', r, hrun, hc.1⟩

theorem dropWhile_all_space (l : List Char) (h : ∀ c ∈ l, isSpaceChar c = true) :
    l.dropWhile isSpaceChar = [] := by
  induction l with
  | nil => rfl
  | cons c t ih =>
    simp only [List.dropWhile_cons, h c (by simp), if_true]
    exact ih (fun x hx => h x (by simp [hx]))

theorem stripL_space (l : List Char) (h : ∀ c ∈ l, isSpaceChar c = true) : stripL l = [] := by
  unfold stripL
  rw [dropWhile_all_space l h]
  rfl

theorem stripNonempty_space (text : String) (h : ∀ c ∈ text.data, isSpaceChar c = true) :
    stripNonempty text = false := by
  unfold stripNonempty
  rw [stripL_space text.data h]
  rfl

theorem splitParasAux_space (acc l : List Char) (hacc : ∀ c ∈ acc, isSpaceChar c = true)
    (hl : ∀ c ∈ l, isSpaceChar c = true) :
    ∀ piece ∈ splitParasAux acc l, ∀ c ∈ piece, isSpaceChar c = true := by
  induction acc, l using splitParasAux.induct with
  | case1 acc =>
    intro piece hp
    simp only [splitParasAux, List.mem_singleton] at hp
    subst hp
    intro c hc
    exact hacc c (List.mem_reverse.mp hc)
  | case2 acc c =>
    intro piece hp
    simp only [splitParasAux, List.mem_singleton] at hp
    subst hp
    intro x hx
    rcases List.mem_cons.mp (List.mem_reverse.mp hx) with h | h
    · subst h
      exact hl x (by simp)
    · exact hacc x h
  | case3 acc c d rest hif ih =>
    intro piece hp
    rw [show splitParasAux acc (c :: d :: rest) = acc.reverse :: splitParasAux [] rest by
      simp only [splitParasAux, hif, if_true]] at hp
    rcases List.mem_cons.mp hp with hp | hp
    · subst hp
      intro x hx
      exact hacc x (List.mem_reverse.mp hx)
    · exact ih (by simp) (fun x hx => hl x (by simp [hx])) piece hp
  | case4 acc c d rest hif ih =>
    intro piece hp
    rw [show splitParasAux acc (c :: d :: rest) = splitParasAux (c :: acc) (d :: rest) by
      simp only [splitParasAux, if_neg hif]] at hp
    refine ih ?_ ?_ piece hp
    · intro x hx
      rcases List.mem_cons.mp hx with h | h
      · subst h
        exact hl x (by simp)
      · exact hacc x h
    · intro x hx
      exact hl x (by simp [hx])

theorem validParagraphs_space_nil (text : String) (h : ∀ c ∈ text.data, isSpaceChar c = true) :
    validParagraphs text = [] := by
  unfold validParagraphs
  rw [List.filter_eq_nil_iff]
  intro p hp
  obtain ⟨piece, hpiece, hmk⟩ := List.mem_map.mp hp
  have hps : ∀ c ∈ piece, isSpaceChar c = true :=
    splitParasAux_space [] text.data (by simp) h piece hpiece
  have : stripL p.data = [] := by
    rw [← hmk]
    exact stripL_space piece hps
  simp [this]

theorem wordCount_space (text : String) (h : ∀ c ∈ text.data, isSpaceChar c = true) :
    wordCount text = 0 := by
  unfold wordCount wordRuns
  rw [wordRunsAux_all_space text.data h []]
  rfl

theorem wordRuns_space (text : String) (h : ∀ c ∈ text.data, isSpaceChar c = true) :
    wordRuns text.data = [] := by
  unfold wordRuns
  rw [wordRunsAux_all_space text.data h []]
  rfl

theorem analyze_space (seg : String → Except String (List String))
    (analyzer : String → Except String Sentiment) (store : Store) (text : String)
    (hsp : ∀ c ∈ text.data, isSpaceChar c = true) :
    analyze_text seg analyzer store text =
      ({ stats := store.stats,
         analysis_results := dictInsert (String.mk (text.data.take 100))
           { char_count := text.length, word_count := 0, sentence_count := 0,
             avg_word_length := 0, avg_sentence_length := 0,
             overall_sentiment := "Neutral", positive_paragraphs := 0,
             negative_paragraphs := 0, sentiment_results := [] } store.analysis_results },
       Except.ok
         { analysis :=
             { char_count := text.length, word_count := 0, sentence_count := 0,
               avg_word_length := 0, avg_sentence_length := 0,
               overall_sentiment := "Neutral", positive_paragraphs := 0,
               negative_paragraphs := 0, sentiment_results := [] },
           readability_issues := [], stats := store.stats }) := by
  have hstrip := stripNonempty_space text hsp
  have hvp := validParagraphs_space_nil text hsp
  have hwc := wordCount_space text hsp
  have hwr := wordRuns_space text hsp
  simp only [analyze_text, hstrip, Bool.false_eq_true, if_false, hvp, hwc, hwr,
    List.map_nil, List.sum_nil, List.length_nil, readabilityIssues, overallFromCounts,
    positiveCount, negativeCount, List.countP_nil]
  norm_num

/-- Claim C5: on empty or whitespace-only text, `/analyze` succeeds with
zero sentence count, zero averages (denominators floored at one), no
sentiment results, and neither the sentence segmenter nor the sentiment
model influences the outcome (the result is the same for any choice of
the two collaborators, failing ones included). -/
theorem claim_C5 (text : String) (hsp : ∀ c ∈ text.data, isSpaceChar c = true)
    (seg seg' : String → Except String (List String))
    (analyzer analyzer' : String → Except String Sentiment) (store : Store) :
    analyze_text seg analyzer store text = analyze_text seg' analyzer' store text
    ∧ ∃ store' r, analyze_text seg analyzer store text = (store', Except.ok r)
      ∧ r.analysis.sentence_count = 0
      ∧ r.analysis.avg_word_length = 0
      ∧ r.analysis.avg_sentence_length = 0
      ∧ r.analysis.sentiment_results = []
      ∧ validParagraphs text = [] := by
  refine ⟨?_, ?_⟩
  · rw [analyze_space seg analyzer store text hsp, analyze_space seg' analyzer' store text hsp]
  · exact ⟨_, _, analyze_space seg analyzer store text hsp, rfl, rfl, rfl, rfl,
      validParagraphs_space_nil text hsp⟩

/-- Witness for C5: a concrete whitespace-only text with a failing
segmenter and a failing sentiment model on one side. -/
theorem claim_C5_witness :
    analyze_text alwaysFailSeg failAnalyzer ⟨⟨0, 0, 0⟩, []⟩ " \n\t "
        = analyze_text sentTokenizeModelE posAnalyzer ⟨⟨0, 0, 0⟩, []⟩ " \n\t "
    ∧ ∃ store' r, analyze_text alwaysFailSeg failAnalyzer ⟨⟨0, 0, 0⟩, []⟩ " \n\t "
        = (store', Except.ok r)
      ∧ r.analysis.sentence_count = 0
      ∧ r.analysis.avg_word_length = 0
      ∧ r.analysis.avg_sentence_length = 0
      ∧ r.analysis.sentiment_results = []
      ∧ validParagraphs " \n\t " = [] :=
  claim_C5 " \n\t " (by decide) alwaysFailSeg sentTokenizeModelE failAnalyzer posAnalyzer ⟨⟨0, 0, 0⟩, []⟩
